import Mathlib

/-!
Verification of the `reddit_fb_scraper` post-processing pipeline
(`reddit_fb_scraper/pipelines.py`, class `DedupeDownloadUploadPipeline`).

The Python pipeline is shallowly embedded: SQLite rows become a keyed list
with upsert semantics, every observable side effect (HTTP GET attempt, HTTP
POST upload, store write, sleep) is emitted into an explicit event trace, and
the filesystem/network are oracles packaged in an `Env` record.  Each helper
method of the class is transcribed as its own Lean function, and
`processItem` mirrors `process_item` line by line.
-/

namespace RedditFbScraper

/-- A scraped item: the fields of `RedditMediaItem` that the pipeline reads.
`url` is an `Option` because the spider may leave it as `None`; `files` is the
list of relative paths recorded by Scrapy's FilesPipeline; `author` is never
set by the spiders, hence optional. -/
structure Item where
  post_id : String
  permalink : String
  title : String
  subreddit : String
  author : Option String
  type : String
  url : Option String
  files : List String
  deriving Repr, DecidableEq

/-- One row of the SQLite `posted` table (pipelines.py lines 34-49), minus the
`posted_at` default timestamp which no pipeline code ever reads. -/
structure Row where
  post_id : String
  reddit_url : String
  title : String
  subreddit : String
  author : Option String
  post_type : String
  media_url : Option String
  local_path : Option String
  fb_post_id : Option String
  upload_status : String
  error_message : Option String
  deriving Repr, DecidableEq

/-- Observable side effects of one `process_item` call, in program order:
an HTTP GET attempt, the multipart POST to the webhook, an
`INSERT OR REPLACE` into `posted`, the retry backoff sleep (with its duration
in seconds), the 3-second post-upload settling sleep, and the pipeline-level
rate-limit sleep. -/
inductive Ev where
  | get : Ev
  | post : Ev
  | record : Row → Ev
  | sleepBackoff : Nat → Ev
  | sleepSettle : Ev
  | sleepRate : Ev
  deriving Repr, DecidableEq

/-- Result of `process_item`: either `DropItem msg` or the item returned. -/
inductive Outcome where
  | dropped : String → Outcome
  | returned : Outcome
  deriving Repr, DecidableEq

/-- Result of a download helper: a local path, or the raised error text. -/
inductive DlRes where
  | ok : String → DlRes
  | fail : String → DlRes
  deriving Repr, DecidableEq

/-- Outcome of one streamed GET of the media URL (`requests.get` plus
`raise_for_status`): either an exception / error status with its message, or
a 2xx response carrying the raw `Content-Type` header value and the total
body size in bytes. -/
inductive FetchOut where
  | err : String → FetchOut
  | ok : String → Nat → FetchOut

/-- The ambient world of one `process_item` call: Scrapy's `FILES_STORE`
setting, `mimetypes.guess_extension`, the outcome of the GET on the n-th
attempt (1-based), `int(time.time() * 1000)` as sampled on the n-th attempt,
the `os.path.exists` observation of the filesystem, and the webhook's HTTP
status code and response text. -/
structure Env where
  filesStore : String
  guessExt : String → Option String
  fetch : Nat → FetchOut
  ts : Nat → Nat
  fileExists : String → Bool
  uploadStatus : Nat
  uploadBody : String

/- ### The dedup store -/

/-- SELECT 1 FROM posted WHERE post_id = ? (`_is_posted`, lines 117-120). -/
def hasRow (st : List Row) (pid : String) : Bool :=
  st.any (fun r => r.post_id == pid)

/-- INSERT OR REPLACE keyed by `post_id` (the table's PRIMARY KEY). -/
def upsertRow (st : List Row) (r : Row) : List Row :=
  if hasRow st r.post_id then
    st.map (fun r0 => if r0.post_id == r.post_id then r else r0)
  else st ++ [r]

/-- Row written by `_record_posted` (lines 122-151): values bound into the
INSERT OR REPLACE, in source order. -/
def mkRow (item : Item) (local_path fb_post_id : Option String)
    (status : String) (error : Option String) : Row :=
  { post_id := item.post_id
    reddit_url := item.permalink
    title := item.title
    subreddit := item.subreddit
    author := item.author
    post_type := item.type
    media_url := item.url
    local_path := local_path
    fb_post_id := fb_post_id
    upload_status := status
    error_message := error }

/-- Replay the store writes of a trace onto a store. -/
def applyEv (st : List Row) : Ev → List Row
  | .record r => upsertRow st r
  | _ => st

/-- Final store after a trace of events. -/
def applyTrace (st : List Row) (tr : List Ev) : List Row :=
  tr.foldl applyEv st

/- ### Python string primitives used by the pipeline -/

/-- Test whether the first list is an initial segment of the second. -/
def chPre : List Char → List Char → Bool
  | [], _ => true
  | _ :: _, [] => false
  | a :: as, b :: bs => a == b && chPre as bs

/-- Test whether the first list occurs contiguously inside the second. -/
def chSub (n : List Char) : List Char → Bool
  | [] => chPre n []
  | b :: bs => chPre n (b :: bs) || chSub n bs

/-- Python's `needle in haystack` on strings: contiguous substring test
(true for the empty needle). -/
def pyInStr (needle hay : String) : Bool :=
  chSub needle.data hay.data

/-- Helper for `pySplit`: split a character list at a separator, carrying the
current chunk in reverse. -/
def splitChAux (c : Char) : List Char → List Char → List (List Char)
  | [], acc => [acc.reverse]
  | x :: xs, acc =>
      if x == c then acc.reverse :: splitChAux c xs []
      else splitChAux c xs (x :: acc)

/-- Python's `s.split(c)` for a one-character separator (always yields at
least one chunk). -/
def pySplit (s : String) (c : Char) : List String :=
  (splitChAux c s.data []).map String.mk

/-- Whitespace characters removed by Python's `str.strip()`. -/
def isSpaceChar (c : Char) : Bool :=
  c == ' ' || c == '\t' || c == '\n' || c == '\r' || c == '\x0b' || c == '\x0c'

/-- Python's `s.strip()`: drop whitespace from both ends. -/
def pyStrip (s : String) : String :=
  String.mk (((s.data.dropWhile isSpaceChar).reverse.dropWhile isSpaceChar).reverse)

/-- Python's `s.lower()`, character by character. -/
def pyLower (s : String) : String :=
  String.mk (s.data.map Char.toLower)

/-- Index of the last occurrence of a character, if any. -/
def lastIdxOf (cs : List Char) (c : Char) : Option Nat :=
  (List.range cs.length).reverse.find? (fun i => cs.getD i ' ' == c)

/-- Python `os.path.splitext(s)[1]`: the extension including its dot.  The
extension starts at the last dot, provided that dot lies inside the basename
and some character of the basename strictly before it is not a dot. -/
def pySplitextExt (s : String) : String :=
  let cs := s.data
  let base : Nat := match lastIdxOf cs '/' with
    | none => 0
    | some i => i + 1
  match lastIdxOf cs '.' with
  | none => ""
  | some d =>
      if decide (base ≤ d) &&
          (List.range d).any (fun i => decide (base ≤ i) && cs.getD i ' ' != '.') then
        String.mk (cs.drop d)
      else ""

/-- Python truthiness of the pipeline's `ext` variable (`None` and the empty
string are falsy). -/
def pyTruthy : Option String → Bool
  | none => false
  | some s => s != ""

/-- The media type of a raw `Content-Type` header value:
`header.split(";")[0].strip()` (line 191). -/
def contentTypeOf (header : String) : String :=
  pyStrip ((pySplit header ';').headD "")

/-- The extension parsed from the URL path (lines 200-202):
`os.path.splitext(os.path.basename(url.split("?")[0]))[1]`. -/
def urlExtOf (url : String) : String :=
  let url_path := (pySplit url '?').headD ""
  let basename := (pySplit url_path '/').getLastD ""
  pySplitextExt basename

/- ### Media Acquirer -/

/-- Extension resolution in `_download_direct` (lines 190-211): a
`mimetypes.guess_extension` hit on the Content-Type media type with `.jpe`
normalized to `.jpg`; else the URL-path extension; else `.mp4` for a
video-typed item; else `.bin`.  `g` stands for `mimetypes.guess_extension`. -/
def resolveExt (g : String → Option String) (header url itemType : String) : String :=
  let content_type := contentTypeOf header
  let ext_a : Option String :=
    if content_type != "" then
      match g content_type with
      | some e => some (if e == ".jpe" then ".jpg" else e)
      | none => none
    else none
  let url_ext := urlExtOf url
  let ext_b : Option String :=
    if !pyTruthy ext_a && url_ext != "" then some url_ext else ext_a
  if !pyTruthy ext_b then
    if itemType == "video" then ".mp4"
    else if url_ext != "" then url_ext else ".bin"
  else ext_b.getD ""

/-- The body of one iteration of the download loop (lines 186-231): fetch,
resolve the extension, write `reddit_<ts><ext>` under `FILES_STORE`, then
reject any file smaller than 1024 bytes. -/
def downloadAttempt (env : Env) (url itemType : String) (attempt : Nat) : DlRes :=
  match env.fetch attempt with
  | .err m => .fail m
  | .ok header size =>
      let ext := resolveExt env.guessExt header url itemType
      let path := env.filesStore ++ "/reddit_" ++ toString (env.ts attempt) ++ ext
      if size < 1024 then
        .fail ("Downloaded file too small (" ++ toString size ++ " bytes)")
      else .ok path

/-- The `while attempt < max_retries` loop (lines 182-238).  `fuel` is the
number of attempts left, `attempt` the 1-based index of the next attempt and
`last` the message of the last failure; after each failed attempt the code
sleeps `1 + attempt` seconds, including after the final one. -/
def downloadLoop (env : Env) (url itemType : String) (maxRetries : Nat) :
    Nat → Nat → String → DlRes × List Ev
  | 0, _, last =>
      (.fail ("Failed to download after " ++ toString maxRetries ++ " attempts: " ++ last), [])
  | fuel + 1, attempt, _ =>
      match downloadAttempt env url itemType attempt with
      | .ok path => (.ok path, [.get])
      | .fail m =>
          let rest := downloadLoop env url itemType maxRetries fuel (attempt + 1) m
          (rest.1, .get :: .sleepBackoff (1 + attempt) :: rest.2)

/-- The `_download_direct` helper (lines 165-238) with its default
`max_retries = 3`; a missing or empty URL raises before any attempt. -/
def downloadDirect (env : Env) (url : Option String) (itemType : String) :
    DlRes × List Ev :=
  match url with
  | none => (.fail "No URL provided for direct download", [])
  | some u =>
      if u == "" then (.fail "No URL provided for direct download", [])
      else downloadLoop env u itemType 3 3 1 "None"

/-- The `_get_local_file` helper (lines 153-163): the first FilesPipeline
path joined under `FILES_STORE`, if that file exists. -/
def getLocalFile (env : Env) (item : Item) : Option String :=
  match item.files with
  | [] => none
  | f :: _ =>
      let path := env.filesStore ++ "/" ++ f
      if env.fileExists path then some path else none

/-- The acquisition phase of `process_item` (lines 69-89): a video item is
always downloaded directly; an image item first tries the FilesPipeline file
and falls back to a direct download. -/
def acquire (env : Env) (item : Item) : DlRes × List Ev :=
  if item.type == "video" then downloadDirect env item.url "video"
  else
    match getLocalFile env item with
    | some p => (.ok p, [])
    | none => downloadDirect env item.url item.type

/- ### Publisher -/

/-- The local `is_video` of `_upload_to_facebook` (line 250).  Note the quirk
kept exactly as in the source: `ext in (".mp4")` is a Python substring test on
the string `".mp4"` — the parentheses do not make a tuple. -/
def isVideoFile (item : Item) (ext : String) : Bool :=
  item.type == "video" || pyInStr ext ".mp4"

/-- The local `is_photo` of `_upload_to_facebook` (line 251): the declared
type is compared against `"preview"`, not `"image"`. -/
def isPhotoFile (item : Item) (ext : String) : Bool :=
  item.type == "preview" || (ext == ".jpeg" || ext == ".jpg" || ext == ".png")

/-- The `_upload_to_facebook` helper (lines 244-284).  On a non-2xx/3xx
status the raised message carries the status code and the response text; on
success the webhook's response text is returned verbatim after a 3-second
settling sleep. -/
def uploadToFacebook (env : Env) (local_path : String) (item : Item) :
    DlRes × List Ev :=
  if !(isVideoFile item ((pyLower (pySplitextExt local_path))) ||
      isPhotoFile item ((pyLower (pySplitextExt local_path)))) then
    (.fail "Only video and image uploads are supported", [])
  else if 400 ≤ env.uploadStatus then
    (.fail ("Make webhook error " ++ toString env.uploadStatus ++ ": " ++ env.uploadBody),
     [.post])
  else
    (.ok env.uploadBody, [.post, .sleepSettle])

/- ### Pipeline Orchestrator -/

/-- Result of `process_item`: the outcome and the event trace. -/
structure ProcOut where
  out : Outcome
  trace : List Ev
  deriving Repr, DecidableEq

/-- The `process_item` method (lines 59-112), transcribed branch by branch:
unsupported-type drop; dedup drop; acquisition with a "failed" record on
error; the `local file missing` guard; upload with a "failed" record on
error; and on success a "success" record, the rate-limit sleep, and a second
"success" record with `fb_post_id` set to `None` (lines 99-111). -/
def processItem (env : Env) (item : Item) (st : List Row) : ProcOut :=
  if item.type != "image" && item.type != "video" then
    { out := .dropped "Unsupported Reddit post type", trace := [] }
  else if hasRow st item.post_id then
    { out := .dropped ("Already processed: " ++ item.post_id), trace := [] }
  else
    match acquire env item with
    | (.fail e, evs) =>
        { out := .dropped ("Media download failed: " ++ e)
          trace := evs ++ [.record (mkRow item none none "failed" (some e))] }
    | (.ok p, evs) =>
        if p == "" || !env.fileExists p then
          { out := .dropped "Local file missing after download"
            trace := evs ++
              [.record (mkRow item none none "failed"
                (some "local file missing after download"))] }
        else
          match uploadToFacebook env p item with
          | (.ok fbid, uev) =>
              { out := .returned
                trace := evs ++ uev ++
                  [.record (mkRow item (some p) (some fbid) "success" none),
                   .sleepRate,
                   .record (mkRow item (some p) none "success" none)] }
          | (.fail e, uev) =>
              { out := .dropped "FB upload failed"
                trace := evs ++ uev ++
                  [.record (mkRow item (some p) none "failed" (some e))] }

/-- The store after one `process_item` call: the input store with the trace's
`_record_posted` writes replayed onto it. -/
def processStore (env : Env) (item : Item) (st : List Row) : List Row :=
  applyTrace st (processItem env item st).trace

/- ### Trace observations -/

/-- Count of HTTP GET attempts in a trace. -/
def getCount (tr : List Ev) : Nat :=
  (tr.filter (fun e => match e with | .get => true | _ => false)).length

/-- Count of HTTP POST uploads in a trace. -/
def postCount (tr : List Ev) : Nat :=
  (tr.filter (fun e => match e with | .post => true | _ => false)).length

/-- Count of store writes in a trace. -/
def recordCount (tr : List Ev) : Nat :=
  (tr.filter (fun e => match e with | .record _ => true | _ => false)).length

/-- The backoff sleep durations of a trace, in order. -/
def backoffs (tr : List Ev) : List Nat :=
  tr.filterMap (fun e => match e with | .sleepBackoff n => some n | _ => none)

/-- First row stored under a given post id. -/
def getRow (st : List Row) (pid : String) : Option Row :=
  st.find? (fun r => r.post_id == pid)

/-- Number of rows stored under a given post id. -/
def countKey (st : List Row) (pid : String) : Nat :=
  (st.filter (fun r => r.post_id == pid)).length

/- ### Concrete scenarios -/

/-- A `mimetypes.guess_extension` table restricted to the media types these
scenarios use (values as returned by the Python standard library). -/
def stdGuess : String → Option String := fun ct =>
  if ct == "image/jpeg" then some ".jpg"
  else if ct == "image/png" then some ".png"
  else if ct == "video/mp4" then some ".mp4"
  else none

/-- Scenario A item: an image post `abc123` with no pre-fetched file. -/
def itemA : Item :=
  { post_id := "abc123"
    permalink := "https://www.reddit.com/r/pics/comments/abc123/"
    title := "cat"
    subreddit := "pics"
    author := none
    type := "image"
    url := some "https://example/img.png"
    files := [] }

/-- Scenario A world: the GET succeeds at once, the written file exists, and
the webhook answers 200 with body "987". -/
def envA : Env :=
  { filesStore := "media"
    guessExt := stdGuess
    fetch := fun _ => .ok "image/png" 4096
    ts := fun _ => 1700000000000
    fileExists := fun p => p == "media/reddit_1700000000000.png"
    uploadStatus := 200
    uploadBody := "987" }

/-- Scenario C item: a video post `xyz`. -/
def itemC : Item :=
  { post_id := "xyz"
    permalink := "https://www.reddit.com/r/videos/comments/xyz/"
    title := "clip"
    subreddit := "videos"
    author := none
    type := "video"
    url := some "https://v.example/clip.mp4"
    files := [] }

/-- Scenario C world: acquisition succeeds but the webhook answers 500. -/
def envC : Env :=
  { filesStore := "media"
    guessExt := stdGuess
    fetch := fun _ => .ok "video/mp4" 500000
    ts := fun _ => 1700000000001
    fileExists := fun p => p == "media/reddit_1700000000001.mp4"
    uploadStatus := 500
    uploadBody := "Internal Server Error" }

/-- A video post that carries a pre-fetched file reference. -/
def itemV : Item :=
  { post_id := "vid9"
    permalink := "https://www.reddit.com/r/videos/comments/vid9/"
    title := "v"
    subreddit := "videos"
    author := none
    type := "video"
    url := some "https://v.example/v.mp4"
    files := ["pre/vid9.mp4"] }

/-- World for `itemV`: every file exists (in particular the pre-fetched one),
and a direct download would also succeed. -/
def envV : Env :=
  { filesStore := "media"
    guessExt := stdGuess
    fetch := fun _ => .ok "video/mp4" 900000
    ts := fun _ => 1700000000002
    fileExists := fun _ => true
    uploadStatus := 200
    uploadBody := "ok1" }

/-- An image post whose FilesPipeline file is present on disk. -/
def itemP : Item :=
  { post_id := "img7"
    permalink := "https://www.reddit.com/r/pics/comments/img7/"
    title := "p"
    subreddit := "pics"
    author := none
    type := "image"
    url := some "https://example/a.png"
    files := ["full/img7.png"] }

/-- World for `itemP`: the network is down (any GET attempt fails), but the
pre-fetched file exists, so acquisition must not touch the network. -/
def envP : Env :=
  { filesStore := "media"
    guessExt := stdGuess
    fetch := fun _ => .err "network unreachable"
    ts := fun _ => 0
    fileExists := fun p => p == "media/full/img7.png"
    uploadStatus := 200
    uploadBody := "55" }

/-- Retry world: attempt 1 hits an HTTP error, attempt 2 yields a 500-byte
body (below the 1 KiB floor), attempt 3 yields a good file. -/
def envR : Env :=
  { filesStore := "media"
    guessExt := stdGuess
    fetch := fun n =>
      if n == 1 then .err "HTTP 503"
      else if n == 2 then .ok "image/png" 500
      else .ok "image/png" 2048
    ts := fun n => 1000 + n
    fileExists := fun _ => true
    uploadStatus := 200
    uploadBody := "id1" }

/-- World where every GET attempt fails with the same HTTP error. -/
def envF : Env :=
  { filesStore := "media"
    guessExt := stdGuess
    fetch := fun _ => .err "HTTP 403"
    ts := fun n => n
    fileExists := fun _ => false
    uploadStatus := 200
    uploadBody := "id2" }

/-- World where the GET succeeds but `os.path.exists` then denies the
downloaded file. -/
def envG : Env :=
  { filesStore := "media"
    guessExt := stdGuess
    fetch := fun _ => .ok "image/png" 4096
    ts := fun _ => 7
    fileExists := fun _ => false
    uploadStatus := 200
    uploadBody := "id3" }

/-- Scenario A world with the webhook answering HTTP 500: exercises the
publish-failure path for an image-typed post. -/
def envA500 : Env :=
  { envA with uploadStatus := 500, uploadBody := "boom" }

/-- An item of an unsupported media type. -/
def itemX : Item :=
  { itemA with post_id := "ext1", type := "external" }

/-- A video item with no media URL. -/
def itemN : Item :=
  { itemC with post_id := "nourl", url := none }

/- ### Helper lemmas about traces and the store -/

lemma chSub_of_chPre {n h : List Char} (hp : chPre n h = true) : chSub n h = true := by
  cases h with
  | nil => simpa [chSub] using hp
  | cons b bs => simp [chSub, hp]

lemma chPre_self_append (n m : List Char) : chPre n (n ++ m) = true := by
  induction n with
  | nil => simp [chPre]
  | cons a as ih => simp [chPre, ih]

lemma chSub_append_left (n : List Char) (x : List Char) {h : List Char}
    (hs : chSub n h = true) : chSub n (x ++ h) = true := by
  induction x with
  | nil => simpa using hs
  | cons a as ih => simp [chSub, ih]

lemma pyInStr_mid (a x y : String) : pyInStr a (x ++ a ++ y) = true := by
  have hdata : (x ++ a ++ y).data = x.data ++ (a.data ++ y.data) := by
    simp [String.data_append]
  unfold pyInStr
  rw [hdata]
  exact chSub_append_left _ _ (chSub_of_chPre (chPre_self_append _ _))

lemma mem_downloadLoop (env : Env) (u ty : String) (mr : Nat) :
    ∀ (fuel attempt : Nat) (last : String),
      ∀ e ∈ (downloadLoop env u ty mr fuel attempt last).2,
        e = .get ∨ ∃ n, e = .sleepBackoff n := by
  intro fuel
  induction fuel with
  | zero => intro attempt last e he; simp [downloadLoop] at he
  | succ f ih =>
      intro attempt last e he
      rw [downloadLoop] at he
      cases hda : downloadAttempt env u ty attempt with
      | ok p =>
          rw [hda] at he
          simp at he
          exact Or.inl he
      | fail m =>
          rw [hda] at he
          simp at he
          rcases he with h | h | h
          · exact Or.inl h
          · exact Or.inr ⟨_, h⟩
          · exact ih (attempt + 1) m e h

lemma mem_downloadDirect (env : Env) (url : Option String) (ty : String) :
    ∀ e ∈ (downloadDirect env url ty).2, e = .get ∨ ∃ n, e = .sleepBackoff n := by
  intro e he
  cases url with
  | none => simp [downloadDirect] at he
  | some u =>
      by_cases hu : u == ""
      · simp [downloadDirect, hu] at he
      · rw [downloadDirect] at he
        simp only [hu, Bool.false_eq_true, if_false] at he
        exact mem_downloadLoop env u ty 3 3 1 "None" e he

lemma mem_acquire (env : Env) (item : Item) :
    ∀ e ∈ (acquire env item).2, e = .get ∨ ∃ n, e = .sleepBackoff n := by
  intro e he
  unfold acquire at he
  by_cases hv : item.type == "video"
  · rw [if_pos hv] at he
    exact mem_downloadDirect env item.url "video" e he
  · rw [if_neg hv] at he
    cases hg : getLocalFile env item with
    | some p => rw [hg] at he; simp at he
    | none => rw [hg] at he; exact mem_downloadDirect env item.url item.type e he

lemma mem_upload (env : Env) (p : String) (item : Item) :
    ∀ e ∈ (uploadToFacebook env p item).2, e = .post ∨ e = .sleepSettle := by
  intro e he
  unfold uploadToFacebook at he
  by_cases hc : (!(isVideoFile item ((pyLower (pySplitextExt p))) ||
      isPhotoFile item ((pyLower (pySplitextExt p))))) = true
  · rw [if_pos hc] at he
    simp at he
  · rw [if_neg hc] at he
    by_cases hs : 400 ≤ env.uploadStatus
    · rw [if_pos hs] at he
      simp at he
      exact Or.inl he
    · rw [if_neg hs] at he
      simp at he
      rcases he with h | h
      · exact Or.inl h
      · exact Or.inr h

lemma applyTrace_append (st : List Row) (a b : List Ev) :
    applyTrace st (a ++ b) = applyTrace (applyTrace st a) b := by
  simp [applyTrace, List.foldl_append]

lemma applyTrace_no_record {tr : List Ev}
    (h : ∀ e ∈ tr, ∀ r : Row, e ≠ .record r) (st : List Row) :
    applyTrace st tr = st := by
  induction tr generalizing st with
  | nil => rfl
  | cons e t ih =>
      have he : applyEv st e = st := by
        cases e with
        | record r => exact absurd rfl (h _ (List.mem_cons_self _ _) r)
        | get => rfl
        | post => rfl
        | sleepBackoff n => rfl
        | sleepSettle => rfl
        | sleepRate => rfl
      calc applyTrace st (e :: t) = applyTrace (applyEv st e) t := rfl
        _ = applyTrace st t := by rw [he]
        _ = st := ih (fun x hx r => h x (List.mem_cons_of_mem _ hx) r) st

lemma applyTrace_acquire (env : Env) (item : Item) (st : List Row) :
    applyTrace st (acquire env item).2 = st := by
  apply applyTrace_no_record
  intro e he r
  rcases mem_acquire env item e he with h | ⟨n, h⟩ <;> simp [h]

lemma applyTrace_upload (env : Env) (p : String) (item : Item) (st : List Row) :
    applyTrace st (uploadToFacebook env p item).2 = st := by
  apply applyTrace_no_record
  intro e he r
  rcases mem_upload env p item e he with h | h <;> simp [h]

lemma getRow_upsert (st : List Row) (r : Row) :
    getRow (upsertRow st r) r.post_id = some r := by
  unfold upsertRow
  by_cases h : hasRow st r.post_id
  · rw [if_pos h]
    unfold hasRow at h
    induction st with
    | nil => simp at h
    | cons a t ih =>
        by_cases ha : a.post_id == r.post_id
        · simp [getRow, List.find?, ha]
        · have ht : t.any (fun r0 => r0.post_id == r.post_id) = true := by
            simp only [List.any_cons, ha, Bool.false_or] at h
            exact h
          simpa [getRow, List.find?, ha] using ih ht
  · rw [if_neg h]
    unfold hasRow at h
    induction st with
    | nil => simp [getRow, List.find?]
    | cons a t ih =>
        have ha : (a.post_id == r.post_id) = false := by
          by_contra hc
          exact h (by simp [List.any_cons, eq_true_of_ne_false hc])
        have ht : ¬ t.any (fun r0 => r0.post_id == r.post_id) = true := by
          intro hc
          exact h (by simp [List.any_cons, hc])
        simpa [getRow, List.find?, ha] using ih ht

lemma countKey_map_replace (st : List Row) (r : Row) (pid : String) :
    countKey (st.map (fun r0 => if r0.post_id == r.post_id then r else r0)) pid
      = countKey st pid := by
  induction st with
  | nil => rfl
  | cons a t ih =>
      by_cases ha : a.post_id == r.post_id
      · have haeq : a.post_id = r.post_id := by simpa using ha
        by_cases hpid : r.post_id = pid
        · simp [countKey, List.filter_cons, ha, haeq, hpid] at *
          simpa [countKey] using ih
        · have h1 : (r.post_id == pid) = false := by simpa using hpid
          have h2 : (a.post_id == pid) = false := by simp [haeq, hpid]
          simp only [List.map_cons, countKey, List.filter_cons, if_pos ha, h1, h2,
            Bool.false_eq_true, if_false]
          simpa [countKey] using ih
      · simp only [List.map_cons, countKey, List.filter_cons, ha, Bool.false_eq_true, if_false]
        by_cases h2 : a.post_id == pid
        · simp only [h2, if_true, List.length_cons]
          simpa [countKey] using congrArg Nat.succ (by simpa [countKey] using ih)
        · simp only [h2, Bool.false_eq_true, if_false]
          simpa [countKey] using ih

lemma countKey_of_hasRow_false {st : List Row} {pid : String}
    (h : hasRow st pid = false) : countKey st pid = 0 := by
  induction st with
  | nil => rfl
  | cons a t ih =>
      simp only [hasRow, List.any_cons, Bool.or_eq_false_iff] at h
      simp only [countKey, List.filter_cons, h.1, Bool.false_eq_true, if_false]
      exact ih (by simpa [hasRow] using h.2)

lemma countKey_upsert_le {st : List Row} {pid : String} (r : Row)
    (h : countKey st pid ≤ 1) : countKey (upsertRow st r) pid ≤ 1 := by
  unfold upsertRow
  by_cases hr : hasRow st r.post_id
  · rw [if_pos hr, countKey_map_replace]
    exact h
  · rw [if_neg hr]
    have h0 : countKey st r.post_id = 0 :=
      countKey_of_hasRow_false (Bool.eq_false_iff.mpr hr)
    have hsplit : countKey (st ++ [r]) pid = countKey st pid + countKey [r] pid := by
      simp [countKey, List.filter_append]
    by_cases hpid : r.post_id == pid
    · have hpe : r.post_id = pid := by simpa using hpid
      subst hpe
      rw [hsplit, h0]
      simp [countKey, List.filter]
    · rw [hsplit]
      have h1 : countKey [r] pid = 0 := by
        simp only [countKey, List.filter, hpid, Bool.false_eq_true]
        rfl
      rw [h1]
      simpa using h

lemma countKey_applyTrace {st : List Row} {pid : String} (tr : List Ev)
    (h : countKey st pid ≤ 1) : countKey (applyTrace st tr) pid ≤ 1 := by
  induction tr generalizing st with
  | nil => exact h
  | cons e t ih =>
      have he : countKey (applyEv st e) pid ≤ 1 := by
        cases e with
        | record r => exact countKey_upsert_le r h
        | get => exact h
        | post => exact h
        | sleepBackoff n => exact h
        | sleepSettle => exact h
        | sleepRate => exact h
      exact ih he

lemma recordCount_append (a b : List Ev) :
    recordCount (a ++ b) = recordCount a + recordCount b := by
  simp [recordCount, List.filter_append]

lemma recordCount_acquire (env : Env) (item : Item) :
    recordCount (acquire env item).2 = 0 := by
  have : ∀ e ∈ (acquire env item).2,
      ¬ (match e with | .record _ => true | _ => false) = true := by
    intro e he
    rcases mem_acquire env item e he with h | ⟨n, h⟩ <;> simp [h]
  simp [recordCount, List.filter_eq_nil_iff.mpr this]

lemma recordCount_upload (env : Env) (p : String) (item : Item) :
    recordCount (uploadToFacebook env p item).2 = 0 := by
  have : ∀ e ∈ (uploadToFacebook env p item).2,
      ¬ (match e with | .record _ => true | _ => false) = true := by
    intro e he
    rcases mem_upload env p item e he with h | h <;> simp [h]
  simp [recordCount, List.filter_eq_nil_iff.mpr this]

lemma getCount_append (a b : List Ev) :
    getCount (a ++ b) = getCount a + getCount b := by
  simp [getCount, List.filter_append]

lemma getCount_upload (env : Env) (p : String) (item : Item) :
    getCount (uploadToFacebook env p item).2 = 0 := by
  have : ∀ e ∈ (uploadToFacebook env p item).2,
      ¬ (match e with | .get => true | _ => false) = true := by
    intro e he
    rcases mem_upload env p item e he with h | h <;> simp [h]
  simp [getCount, List.filter_eq_nil_iff.mpr this]

lemma postCount_append (a b : List Ev) :
    postCount (a ++ b) = postCount a + postCount b := by
  simp [postCount, List.filter_append]

lemma postCount_acquire (env : Env) (item : Item) :
    postCount (acquire env item).2 = 0 := by
  have : ∀ e ∈ (acquire env item).2,
      ¬ (match e with | .post => true | _ => false) = true := by
    intro e he
    rcases mem_acquire env item e he with h | ⟨n, h⟩ <;> simp [h]
  simp [postCount, List.filter_eq_nil_iff.mpr this]

lemma sleepRate_not_mem_acquire (env : Env) (item : Item) :
    Ev.sleepRate ∉ (acquire env item).2 := by
  intro h
  rcases mem_acquire env item _ h with h' | ⟨n, h'⟩ <;> simp at h'

lemma sleepRate_not_mem_upload (env : Env) (p : String) (item : Item) :
    Ev.sleepRate ∉ (uploadToFacebook env p item).2 := by
  intro h
  rcases mem_upload env p item _ h with h' | h' <;> simp at h'

lemma supported_of_guard {t : String} (h : ¬ (t != "image" && t != "video") = true) :
    t = "image" ∨ t = "video" := by
  by_contra hc
  push_neg at hc
  exact h (by simp [hc.1, hc.2])

lemma processItem_unsupported (env : Env) (item : Item) (st : List Row)
    (h1 : item.type ≠ "image") (h2 : item.type ≠ "video") :
    processItem env item st =
      { out := .dropped "Unsupported Reddit post type", trace := [] } := by
  unfold processItem
  rw [if_pos (by simp [h1, h2])]

lemma processItem_dup (env : Env) (item : Item) (st : List Row)
    (hsup : item.type = "image" ∨ item.type = "video")
    (hdup : hasRow st item.post_id = true) :
    processItem env item st =
      { out := .dropped ("Already processed: " ++ item.post_id), trace := [] } := by
  have hb : (item.type != "image" && item.type != "video") = false := by
    rcases hsup with h | h <;> simp [h]
  unfold processItem
  rw [hb]
  simp only [Bool.false_eq_true, if_false]
  rw [if_pos hdup]

lemma processItem_acquire_fail (env : Env) (item : Item) (st : List Row)
    (e : String) (evs : List Ev)
    (hsup : item.type = "image" ∨ item.type = "video")
    (hdup : hasRow st item.post_id = false)
    (hacq : acquire env item = (.fail e, evs)) :
    processItem env item st =
      { out := .dropped ("Media download failed: " ++ e)
        trace := evs ++ [.record (mkRow item none none "failed" (some e))] } := by
  have hb : (item.type != "image" && item.type != "video") = false := by
    rcases hsup with h | h <;> simp [h]
  unfold processItem
  rw [hb]
  simp only [Bool.false_eq_true, if_false, hdup, hacq]

lemma processItem_file_missing (env : Env) (item : Item) (st : List Row)
    (p : String) (evs : List Ev)
    (hsup : item.type = "image" ∨ item.type = "video")
    (hdup : hasRow st item.post_id = false)
    (hacq : acquire env item = (.ok p, evs))
    (hmiss : (p == "" || !env.fileExists p) = true) :
    processItem env item st =
      { out := .dropped "Local file missing after download"
        trace := evs ++ [.record (mkRow item none none "failed"
          (some "local file missing after download"))] } := by
  have hb : (item.type != "image" && item.type != "video") = false := by
    rcases hsup with h | h <;> simp [h]
  unfold processItem
  rw [hb]
  simp only [Bool.false_eq_true, if_false, hdup, hacq]
  rw [if_pos hmiss]

lemma processItem_upload_ok (env : Env) (item : Item) (st : List Row)
    (p fbid : String) (evs uev : List Ev)
    (hsup : item.type = "image" ∨ item.type = "video")
    (hdup : hasRow st item.post_id = false)
    (hacq : acquire env item = (.ok p, evs))
    (hp : p ≠ "")
    (hex : env.fileExists p = true)
    (hup : uploadToFacebook env p item = (.ok fbid, uev)) :
    processItem env item st =
      { out := .returned
        trace := evs ++ uev ++
          [.record (mkRow item (some p) (some fbid) "success" none), .sleepRate,
           .record (mkRow item (some p) none "success" none)] } := by
  have hb : (item.type != "image" && item.type != "video") = false := by
    rcases hsup with h | h <;> simp [h]
  have hmiss : (p == "" || !env.fileExists p) = false := by simp [hp, hex]
  unfold processItem
  rw [hb]
  simp only [Bool.false_eq_true, if_false, hdup, hacq, hmiss, hup]

lemma processItem_upload_fail (env : Env) (item : Item) (st : List Row)
    (p e : String) (evs uev : List Ev)
    (hsup : item.type = "image" ∨ item.type = "video")
    (hdup : hasRow st item.post_id = false)
    (hacq : acquire env item = (.ok p, evs))
    (hp : p ≠ "")
    (hex : env.fileExists p = true)
    (hup : uploadToFacebook env p item = (.fail e, uev)) :
    processItem env item st =
      { out := .dropped "FB upload failed"
        trace := evs ++ uev ++
          [.record (mkRow item (some p) none "failed" (some e))] } := by
  have hb : (item.type != "image" && item.type != "video") = false := by
    rcases hsup with h | h <;> simp [h]
  have hmiss : (p == "" || !env.fileExists p) = false := by simp [hp, hex]
  unfold processItem
  rw [hb]
  simp only [Bool.false_eq_true, if_false, hdup, hacq, hmiss, hup]

lemma processItem_cases (env : Env) (item : Item) (st : List Row) :
    (∃ msg, processItem env item st = { out := .dropped msg, trace := [] }) ∨
    (∃ e evs, acquire env item = (.fail e, evs) ∧
      processItem env item st =
        { out := .dropped ("Media download failed: " ++ e)
          trace := evs ++ [.record (mkRow item none none "failed" (some e))] }) ∨
    (∃ p evs, acquire env item = (.ok p, evs) ∧
      processItem env item st =
        { out := .dropped "Local file missing after download"
          trace := evs ++ [.record (mkRow item none none "failed"
            (some "local file missing after download"))] }) ∨
    (∃ p evs fbid uev, acquire env item = (.ok p, evs) ∧
      uploadToFacebook env p item = (.ok fbid, uev) ∧
      processItem env item st =
        { out := .returned
          trace := evs ++ uev ++
            [.record (mkRow item (some p) (some fbid) "success" none), .sleepRate,
             .record (mkRow item (some p) none "success" none)] }) ∨
    (∃ p evs e uev, acquire env item = (.ok p, evs) ∧
      uploadToFacebook env p item = (.fail e, uev) ∧
      processItem env item st =
        { out := .dropped "FB upload failed"
          trace := evs ++ uev ++
            [.record (mkRow item (some p) none "failed" (some e))] }) := by
  unfold processItem
  split
  · exact Or.inl ⟨_, rfl⟩
  · split
    · exact Or.inl ⟨_, rfl⟩
    · split
      next e evs heq =>
        exact Or.inr (Or.inl ⟨e, evs, heq, rfl⟩)
      next p evs heq =>
        split
        · exact Or.inr (Or.inr (Or.inl ⟨p, evs, heq, rfl⟩))
        · split
          next fbid uev heq2 =>
            exact Or.inr (Or.inr (Or.inr (Or.inl ⟨p, evs, fbid, uev, heq, heq2, rfl⟩)))
          next e uev heq2 =>
            exact Or.inr (Or.inr (Or.inr (Or.inr ⟨p, evs, e, uev, heq, heq2, rfl⟩)))

lemma getCount_downloadLoop (env : Env) (u ty : String) (mr : Nat) :
    ∀ (fuel attempt : Nat) (last : String),
      getCount (downloadLoop env u ty mr fuel attempt last).2 ≤ fuel := by
  intro fuel
  induction fuel with
  | zero => intro attempt last; simp [downloadLoop, getCount]
  | succ f ih =>
      intro attempt last
      rw [downloadLoop]
      cases hda : downloadAttempt env u ty attempt with
      | ok p => simp [getCount, List.filter]
      | fail m =>
          simp only [getCount, List.filter, List.length_cons]
          have := ih (attempt + 1) m
          simpa [getCount] using Nat.succ_le_succ this

/- ### Claim theorems -/

/-- C9: for every post whose media type is outside the supported set
{image, video}, `process_item` rejects it before any I/O — the result is the
unsupported-type drop with an empty trace (zero GETs, zero POSTs, zero store
writes) and the store is unchanged. -/
theorem unsupported_type_short_circuit (env : Env) (item : Item) (st : List Row)
    (h1 : item.type ≠ "image") (h2 : item.type ≠ "video") :
    processItem env item st =
      { out := .dropped "Unsupported Reddit post type", trace := [] } ∧
    processStore env item st = st ∧
    getCount (processItem env item st).trace = 0 ∧
    postCount (processItem env item st).trace = 0 ∧
    recordCount (processItem env item st).trace = 0 := by
  have h := processItem_unsupported env item st h1 h2
  exact ⟨h, by simp [processStore, h, applyTrace],
    by rw [h]; rfl, by rw [h]; rfl, by rw [h]; rfl⟩

/-- Witness for `unsupported_type_short_circuit` at the concrete
`external`-typed item `itemX`. -/
theorem unsupported_type_short_circuit_witness :
    processItem envA itemX [] =
      { out := .dropped "Unsupported Reddit post type", trace := [] } :=
  (unsupported_type_short_circuit envA itemX [] (by decide) (by decide)).1

/-- C2: for every post whose `post_id` already has a row in the store —
whatever that row's status — `process_item` performs no acquisition, no
publish and no store write (empty trace, store unchanged) and drops the item;
for supported types the drop is exactly the `Already processed` duplicate
skip.  Consequently a store holding at most one row per post id keeps that
invariant across any two consecutive `process_item` calls: processing the
same post twice never yields two rows for its post id. -/
theorem duplicate_skip_idempotent :
    (∀ (env : Env) (item : Item) (st : List Row),
      hasRow st item.post_id = true →
        (processItem env item st).trace = [] ∧
        processStore env item st = st ∧
        ∃ m, (processItem env item st).out = .dropped m) ∧
    (∀ (env : Env) (item : Item) (st : List Row),
      (item.type = "image" ∨ item.type = "video") →
      hasRow st item.post_id = true →
        processItem env item st =
          { out := .dropped ("Already processed: " ++ item.post_id), trace := [] }) ∧
    (∀ (env env2 : Env) (item item2 : Item) (st : List Row) (pid : String),
      countKey st pid ≤ 1 →
        countKey (processStore env2 item2 (processStore env item st)) pid ≤ 1) := by
  refine ⟨?_, fun env item st hsup hdup => processItem_dup env item st hsup hdup, ?_⟩
  · intro env item st hdup
    by_cases h1 : item.type = "image"
    · have h := processItem_dup env item st (Or.inl h1) hdup
      exact ⟨by rw [h], by simp [processStore, h, applyTrace], ⟨_, by rw [h]⟩⟩
    · by_cases h2 : item.type = "video"
      · have h := processItem_dup env item st (Or.inr h2) hdup
        exact ⟨by rw [h], by simp [processStore, h, applyTrace], ⟨_, by rw [h]⟩⟩
      · have h := processItem_unsupported env item st h1 h2
        exact ⟨by rw [h], by simp [processStore, h, applyTrace], ⟨_, by rw [h]⟩⟩
  · intro env env2 item item2 st pid h
    exact countKey_applyTrace _ (countKey_applyTrace _ h)

/-- Witness for `duplicate_skip_idempotent`: resubmitting `abc123` over a
store that already holds a failed row for it is the duplicate skip. -/
theorem duplicate_skip_idempotent_witness :
    processItem envA itemA [mkRow itemA none none "failed" (some "boom")] =
      { out := .dropped ("Already processed: " ++ itemA.post_id), trace := [] } :=
  duplicate_skip_idempotent.2.1 envA itemA
    [mkRow itemA none none "failed" (some "boom")] (Or.inl rfl) (by decide)

/-- C10: on every acquisition-failure exit of `process_item` the row upserted
for the post id is `status = "failed"` with the causing error text and both
`local_path` and `fb_post_id` NULL, and the item is dropped with no POST ever
issued.  The three exits are covered: any acquisition failure (first
conjunct, with the error text `e` surfaced into the row), a missing URL
(second conjunct: the acquisition failure text is exactly the missing-URL
error), and the file-missing-after-download guard (third conjunct). -/
theorem acquisition_failure_recording :
    (∀ (env : Env) (item : Item) (st : List Row) (e : String) (evs : List Ev),
      (item.type = "image" ∨ item.type = "video") →
      hasRow st item.post_id = false →
      acquire env item = (.fail e, evs) →
        (processItem env item st).out = .dropped ("Media download failed: " ++ e) ∧
        processStore env item st = upsertRow st (mkRow item none none "failed" (some e)) ∧
        getRow (processStore env item st) item.post_id =
          some (mkRow item none none "failed" (some e)) ∧
        postCount (processItem env item st).trace = 0) ∧
    (∀ (env : Env) (item : Item), item.type = "video" → item.url = none →
      acquire env item = (.fail "No URL provided for direct download", [])) ∧
    (∀ (env : Env) (item : Item) (st : List Row) (p : String) (evs : List Ev),
      (item.type = "image" ∨ item.type = "video") →
      hasRow st item.post_id = false →
      acquire env item = (.ok p, evs) →
      env.fileExists p = false →
        (processItem env item st).out = .dropped "Local file missing after download" ∧
        getRow (processStore env item st) item.post_id =
          some (mkRow item none none "failed"
            (some "local file missing after download")) ∧
        postCount (processItem env item st).trace = 0) := by
  refine ⟨?_, ?_, ?_⟩
  · intro env item st e evs hsup hdup hacq
    have hevs : evs = (acquire env item).2 := by rw [hacq]
    subst hevs
    have h := processItem_acquire_fail env item st e _ hsup hdup hacq
    have hstore : processStore env item st
        = upsertRow st (mkRow item none none "failed" (some e)) := by
      simp only [processStore, h]
      rw [applyTrace_append, applyTrace_acquire]
      rfl
    refine ⟨by rw [h], hstore, ?_, ?_⟩
    · rw [hstore]
      exact getRow_upsert st _
    · rw [h]
      simp only [postCount_append, postCount_acquire]
      rfl
  · intro env item hvid hurl
    simp [acquire, hvid, hurl, downloadDirect]
  · intro env item st p evs hsup hdup hacq hexF
    have hevs : evs = (acquire env item).2 := by rw [hacq]
    subst hevs
    have hmiss : (p == "" || !env.fileExists p) = true := by simp [hexF]
    have h := processItem_file_missing env item st p _ hsup hdup hacq hmiss
    have hstore : processStore env item st
        = upsertRow st (mkRow item none none "failed"
            (some "local file missing after download")) := by
      simp only [processStore, h]
      rw [applyTrace_append, applyTrace_acquire]
      rfl
    refine ⟨by rw [h], ?_, ?_⟩
    · rw [hstore]
      exact getRow_upsert st _
    · rw [h]
      simp only [postCount_append, postCount_acquire]
      rfl

/-- Witness for `acquisition_failure_recording`, exercising all three
conjuncts: retries exhausted (`envF`), a video item with no URL (`itemN`),
and the downloaded file denied by `os.path.exists` (`envG`). -/
theorem acquisition_failure_recording_witness :
    ((processItem envF itemA []).out =
        .dropped ("Media download failed: " ++
          "Failed to download after 3 attempts: HTTP 403") ∧
      postCount (processItem envF itemA []).trace = 0) ∧
    acquire envC itemN = (.fail "No URL provided for direct download", []) ∧
    (processItem envG itemA []).out = .dropped "Local file missing after download" := by
  refine ⟨?_, ?_, ?_⟩
  · have h := acquisition_failure_recording.1 envF itemA []
      "Failed to download after 3 attempts: HTTP 403" [.get, .sleepBackoff 2,
        .get, .sleepBackoff 3, .get, .sleepBackoff 4]
      (Or.inl rfl) (by decide) (by decide)
    exact ⟨h.1, h.2.2.2⟩
  · exact acquisition_failure_recording.2.1 envC itemN rfl rfl
  · exact (acquisition_failure_recording.2.2 envG itemA [] "media/reddit_7.png"
      [.get] (Or.inl rfl) (by decide) (by decide) rfl).1

/-- C3 is refuted as stated: in Scenario C acquisition succeeded (the stored
row carries the downloaded file's path) and the publish step failed, yet the
trace contains no rate-limit sleep — `process_item` raises `DropItem` at the
publish-failure exit before ever reaching the `time.sleep` call. -/
theorem rate_wait_counterexample :
    (getRow (processStore envC itemC []) "xyz").map Row.local_path
        = some (some "media/reddit_1700000000001.mp4") ∧
    (processItem envC itemC []).out = .dropped "FB upload failed" ∧
    Ev.sleepRate ∉ (processItem envC itemC []).trace := by
  refine ⟨rfl, rfl, ?_⟩
  decide

/-- C3 (amended): the rate-limit wait runs exactly on the success exit — the
trace contains the rate-limit sleep if and only if `process_item` returns the
item (acquisition AND publish both succeeded); on any publish-failure exit no
wait occurs.  On the success exit a "success" row for the post has been
written to the store before the wait runs (and a second "success" write
follows it). -/
theorem rate_wait_after_publish_success (env : Env) (item : Item) (st : List Row) :
    (Ev.sleepRate ∈ (processItem env item st).trace ↔
      (processItem env item st).out = .returned) ∧
    ((processItem env item st).out = .returned →
      ∃ p fbid pre,
        (processItem env item st).trace =
          pre ++ [.record (mkRow item (some p) (some fbid) "success" none),
            .sleepRate, .record (mkRow item (some p) none "success" none)] ∧
        Ev.sleepRate ∉ pre) := by
  rcases processItem_cases env item st with ⟨msg, h⟩ | ⟨e, evs, hacq, h⟩ |
    ⟨p, evs, hacq, h⟩ | ⟨p, evs, fbid, uev, hacq, hup, h⟩ |
    ⟨p, evs, e, uev, hacq, hup, h⟩
  · rw [h]
    exact ⟨by simp, by simp⟩
  · have hevs : evs = (acquire env item).2 := by rw [hacq]
    subst hevs
    rw [h]
    constructor
    · simp only [List.mem_append]
      constructor
      · rintro (hm | hm)
        · exact absurd hm (sleepRate_not_mem_acquire env item)
        · simp at hm
      · intro hc
        simp at hc
    · intro hc
      simp at hc
  · have hevs : evs = (acquire env item).2 := by rw [hacq]
    subst hevs
    rw [h]
    constructor
    · simp only [List.mem_append]
      constructor
      · rintro (hm | hm)
        · exact absurd hm (sleepRate_not_mem_acquire env item)
        · simp at hm
      · intro hc
        simp at hc
    · intro hc
      simp at hc
  · have hevs : evs = (acquire env item).2 := by rw [hacq]
    have huev : uev = (uploadToFacebook env p item).2 := by rw [hup]
    subst hevs
    subst huev
    rw [h]
    refine ⟨by simp, fun _ => ?_⟩
    refine ⟨p, fbid, (acquire env item).2 ++ (uploadToFacebook env p item).2, ?_, ?_⟩
    · rw [List.append_assoc]
    · intro hm
      rcases List.mem_append.mp hm with hm | hm
      · exact sleepRate_not_mem_acquire env item hm
      · exact sleepRate_not_mem_upload env p item hm
  · have hevs : evs = (acquire env item).2 := by rw [hacq]
    have huev : uev = (uploadToFacebook env p item).2 := by rw [hup]
    subst hevs
    subst huev
    rw [h]
    constructor
    · simp only [List.mem_append]
      constructor
      · rintro ((hm | hm) | hm)
        · exact absurd hm (sleepRate_not_mem_acquire env item)
        · exact absurd hm (sleepRate_not_mem_upload env p item)
        · simp at hm
      · intro hc
        simp at hc
    · intro hc
      simp at hc

/-- Witness for `rate_wait_after_publish_success` at Scenario A. -/
theorem rate_wait_after_publish_success_witness :
    Ev.sleepRate ∈ (processItem envA itemA []).trace :=
  (rate_wait_after_publish_success envA itemA []).1.mpr rfl

/-- C7: for any supported post whose acquired file passes the publisher's
classification (video or photo alike), a non-success webhook status makes
`_upload_to_facebook` raise with the status code and response body in the
message, and `process_item` then upserts a row with `status = "failed"`, the
error message carrying the status code, `local_path` still set to the
acquired file and `fb_post_id` NULL, before dropping the item. -/
theorem publish_error_recording (env : Env) (item : Item) (st : List Row)
    (p : String) (evs : List Ev)
    (hsup : item.type = "image" ∨ item.type = "video")
    (hdup : hasRow st item.post_id = false)
    (hacq : acquire env item = (.ok p, evs))
    (hp : p ≠ "")
    (hex : env.fileExists p = true)
    (hkind : (isVideoFile item (pyLower (pySplitextExt p)) ||
      isPhotoFile item (pyLower (pySplitextExt p))) = true)
    (hstat : 400 ≤ env.uploadStatus) :
    uploadToFacebook env p item =
      (.fail ("Make webhook error " ++ toString env.uploadStatus ++ ": " ++ env.uploadBody),
        [.post]) ∧
    (processItem env item st).out = .dropped "FB upload failed" ∧
    getRow (processStore env item st) item.post_id =
      some (mkRow item (some p) none "failed"
        (some ("Make webhook error " ++ toString env.uploadStatus ++ ": "
          ++ env.uploadBody))) ∧
    pyInStr (toString env.uploadStatus)
      ("Make webhook error " ++ toString env.uploadStatus ++ ": " ++ env.uploadBody)
      = true := by
  have hevs : evs = (acquire env item).2 := by rw [hacq]
  subst hevs
  have hcls : (!(isVideoFile item (pyLower (pySplitextExt p)) ||
      isPhotoFile item (pyLower (pySplitextExt p)))) = false := by
    simp [hkind]
  have hup : uploadToFacebook env p item =
      (.fail ("Make webhook error " ++ toString env.uploadStatus ++ ": " ++ env.uploadBody),
        [.post]) := by
    unfold uploadToFacebook
    rw [hcls]
    simp only [Bool.false_eq_true, if_false]
    rw [if_pos hstat]
  have h := processItem_upload_fail env item st p _ _ _ hsup hdup hacq hp hex hup
  have hstore : processStore env item st =
      upsertRow st (mkRow item (some p) none "failed"
        (some ("Make webhook error " ++ toString env.uploadStatus ++ ": "
          ++ env.uploadBody))) := by
    simp only [processStore, h]
    rw [applyTrace_append, applyTrace_append, applyTrace_acquire]
    rfl
  refine ⟨hup, by rw [h], ?_, ?_⟩
  · rw [hstore]
    exact getRow_upsert st _
  · have hmsg : ("Make webhook error " ++ toString env.uploadStatus ++ ": "
        ++ env.uploadBody)
        = ("Make webhook error " ++ toString env.uploadStatus)
          ++ (": " ++ env.uploadBody) := by
      rw [String.append_assoc]
    rw [hmsg]
    exact pyInStr_mid (toString env.uploadStatus) "Make webhook error "
      (": " ++ env.uploadBody)

/-- Witness for `publish_error_recording`, on both media kinds: Scenario C
(a video post, HTTP 500) and an image post whose webhook answers HTTP 500
(`envA500`). -/
theorem publish_error_recording_witness :
    ((processItem envC itemC []).out = .dropped "FB upload failed" ∧
      getRow (processStore envC itemC []) "xyz" =
        some (mkRow itemC (some "media/reddit_1700000000001.mp4") none "failed"
          (some "Make webhook error 500: Internal Server Error"))) ∧
    ((processItem envA500 itemA []).out = .dropped "FB upload failed" ∧
      getRow (processStore envA500 itemA []) "abc123" =
        some (mkRow itemA (some "media/reddit_1700000000000.png") none "failed"
          (some "Make webhook error 500: boom"))) := by
  constructor
  · have h := publish_error_recording envC itemC [] "media/reddit_1700000000001.mp4"
      [.get] (Or.inr rfl) rfl rfl (by decide) rfl (by decide) (by decide)
    exact ⟨h.2.1, h.2.2.1⟩
  · have h := publish_error_recording envA500 itemA [] "media/reddit_1700000000000.png"
      [.get] (Or.inl rfl) rfl rfl (by decide) rfl (by decide) (by decide)
    exact ⟨h.2.1, h.2.2.1⟩

/-- C1 is refuted as stated: in Scenario A the Outcome Recorder is NOT
invoked exactly once on the success exit (it is invoked twice, lines 99 and
111 of pipelines.py), and the stored row's `fb_post_id` is NOT "987" — the
second write overwrites it with NULL. -/
theorem success_single_record_counterexample :
    ¬ (recordCount (processItem envA itemA []).trace = 1 ∧
       (getRow (processStore envA itemA []) "abc123").map Row.fb_post_id
         = some (some "987")) := by
  decide

/-- C1 (amended): on the success exit `process_item` invokes the Outcome
Recorder exactly twice: first with `fb_post_id` set to the identifier
returned by the publisher, then — after the rate-limit wait — again with
`fb_post_id` NULL.  The stored row for the post id therefore ends with
status "success", `local_path` set to the acquired file, and `fb_post_id`
NULL. -/
theorem success_exit_records_twice (env : Env) (item : Item) (st : List Row)
    (p fbid : String) (evs uev : List Ev)
    (hsup : item.type = "image" ∨ item.type = "video")
    (hdup : hasRow st item.post_id = false)
    (hacq : acquire env item = (.ok p, evs))
    (hp : p ≠ "")
    (hex : env.fileExists p = true)
    (hup : uploadToFacebook env p item = (.ok fbid, uev)) :
    (processItem env item st).out = .returned ∧
    recordCount (processItem env item st).trace = 2 ∧
    (processItem env item st).trace = evs ++ uev ++
      [.record (mkRow item (some p) (some fbid) "success" none), .sleepRate,
       .record (mkRow item (some p) none "success" none)] ∧
    getRow (processStore env item st) item.post_id =
      some (mkRow item (some p) none "success" none) := by
  have hevs : evs = (acquire env item).2 := by rw [hacq]
  have huev : uev = (uploadToFacebook env p item).2 := by rw [hup]
  subst hevs
  subst huev
  have h := processItem_upload_ok env item st p fbid _ _ hsup hdup hacq hp hex hup
  have hstore : processStore env item st =
      upsertRow (upsertRow st (mkRow item (some p) (some fbid) "success" none))
        (mkRow item (some p) none "success" none) := by
    simp only [processStore, h]
    rw [applyTrace_append, applyTrace_append, applyTrace_acquire, applyTrace_upload]
    rfl
  refine ⟨by rw [h], ?_, by rw [h], ?_⟩
  · rw [h]
    simp only [recordCount_append, recordCount_acquire, recordCount_upload]
    rfl
  · rw [hstore]
    exact getRow_upsert _ _

/-- Witness for `success_exit_records_twice` at Scenario A: the publisher
returns "987", two rows are written, and the final row has `fb_post_id`
NULL. -/
theorem success_exit_records_twice_witness :
    (processItem envA itemA []).out = .returned ∧
    recordCount (processItem envA itemA []).trace = 2 ∧
    getRow (processStore envA itemA []) "abc123" =
      some (mkRow itemA (some "media/reddit_1700000000000.png") none "success" none) := by
  have h := success_exit_records_twice envA itemA [] "media/reddit_1700000000000.png"
    "987" [.get] [.post, .sleepSettle] (Or.inl rfl) rfl rfl (by decide) rfl rfl
  exact ⟨h.1, h.2.1, h.2.2.2⟩

/-- C4: the download loop of `_download_direct` makes at most 3 GET attempts;
a fetched body below 1 KiB (e.g. 500 bytes) is a failed attempt consuming a
retry; the backoff sleep after the n-th attempt is exactly `1 + n` seconds
(so the inter-attempt delays 2 s and 3 s meet the `(attempt + 1)` floor and
are strictly increasing); when the first two attempts fail and the third
succeeds `acquire`'s downloader returns the third attempt's path; after all
attempts fail, the last error is surfaced in the raised message. -/
theorem download_retry_policy :
    (∀ (env : Env) (url : Option String) (ty : String),
      getCount (downloadDirect env url ty).2 ≤ 3) ∧
    (∀ (env : Env) (u ty header : String) (n : Nat) (p2 : String),
      env.fetch 1 = .ok header n → n < 1024 →
      downloadAttempt env u ty 2 = .ok p2 → u ≠ "" →
        downloadDirect env (some u) ty = (.ok p2, [.get, .sleepBackoff 2, .get])) ∧
    (∀ (env : Env) (u ty e1 e2 p3 : String),
      downloadAttempt env u ty 1 = .fail e1 →
      downloadAttempt env u ty 2 = .fail e2 →
      downloadAttempt env u ty 3 = .ok p3 → u ≠ "" →
        downloadDirect env (some u) ty =
          (.ok p3, [.get, .sleepBackoff 2, .get, .sleepBackoff 3, .get])) ∧
    (∀ (env : Env) (u ty e1 e2 e3 : String),
      downloadAttempt env u ty 1 = .fail e1 →
      downloadAttempt env u ty 2 = .fail e2 →
      downloadAttempt env u ty 3 = .fail e3 → u ≠ "" →
        downloadDirect env (some u) ty =
          (.fail ("Failed to download after 3 attempts: " ++ e3),
           [.get, .sleepBackoff 2, .get, .sleepBackoff 3, .get, .sleepBackoff 4])) := by
  refine ⟨?_, ?_, ?_, ?_⟩
  · intro env url ty
    cases url with
    | none => simp [downloadDirect, getCount]
    | some u =>
        by_cases hu : (u == "") = true
        · simp [downloadDirect, hu, getCount]
        · have hu' : (u == "") = false := by simpa using hu
          simp only [downloadDirect, hu', Bool.false_eq_true, if_false]
          exact getCount_downloadLoop env u ty 3 3 1 "None"
  · intro env u ty header n p2 hf hn h2 hu
    have h1 : downloadAttempt env u ty 1 =
        .fail ("Downloaded file too small (" ++ toString n ++ " bytes)") := by
      simp only [downloadAttempt, hf]
      rw [if_pos hn]
    have hu' : (u == "") = false := by simpa using hu
    simp only [downloadDirect, hu', Bool.false_eq_true, if_false]
    simp only [downloadLoop, h1, h2]
  · intro env u ty e1 e2 p3 h1 h2 h3 hu
    have hu' : (u == "") = false := by simpa using hu
    simp only [downloadDirect, hu', Bool.false_eq_true, if_false]
    simp only [downloadLoop, h1, h2, h3]
  · intro env u ty e1 e2 e3 h1 h2 h3 hu
    have hu' : (u == "") = false := by simpa using hu
    simp only [downloadDirect, hu', Bool.false_eq_true, if_false]
    simp only [downloadLoop, h1, h2, h3]
    rfl

/-- Witness for `download_retry_policy` in the retry world `envR`: attempt 1
is an HTTP error, attempt 2 a 500-byte body, attempt 3 succeeds; the result
is the third attempt's path after backoffs of 2 s and 3 s. -/
theorem download_retry_policy_witness :
    downloadDirect envR (some "https://example/x.png") "image" =
      (.ok "media/reddit_1003.png",
       [.get, .sleepBackoff 2, .get, .sleepBackoff 3, .get]) :=
  download_retry_policy.2.2.1 envR "https://example/x.png" "image"
    "HTTP 503" "Downloaded file too small (500 bytes)" "media/reddit_1003.png"
    rfl rfl rfl (by decide)

/-- C5 is refuted as stated: a supported VIDEO post carrying a pre-fetched
file that exists on disk is still downloaded over the network — the video
branch of `process_item` (line 72) calls `_download_direct` without ever
consulting `_get_local_file`, and the stored row's `local_path` is the
freshly downloaded file, not the pre-fetched one. -/
theorem prefetch_ignored_for_video :
    itemV.files = ["pre/vid9.mp4"] ∧
    envV.fileExists (envV.filesStore ++ "/" ++ "pre/vid9.mp4") = true ∧
    getCount (processItem envV itemV []).trace = 1 ∧
    (getRow (processStore envV itemV []) "vid9").map Row.local_path
      = some (some "media/reddit_1700000000002.mp4") :=
  ⟨rfl, rfl, rfl, rfl⟩

/-- C5 (amended): only for IMAGE-typed posts does a pre-fetched file short
circuit the network — when the FilesPipeline file exists, `process_item`
performs zero GETs and every row it writes carries that file as
`local_path`; video-typed posts always download directly. -/
theorem prefetch_used_for_image (env : Env) (item : Item) (st : List Row)
    (f : String) (fs : List String)
    (himg : item.type = "image")
    (hf : item.files = f :: fs)
    (hex : env.fileExists (env.filesStore ++ "/" ++ f) = true)
    (hdup : hasRow st item.post_id = false) :
    getCount (processItem env item st).trace = 0 ∧
    (∀ r : Row, Ev.record r ∈ (processItem env item st).trace →
      r.local_path = some (env.filesStore ++ "/" ++ f)) := by
  have hacq : acquire env item = (.ok (env.filesStore ++ "/" ++ f), []) := by
    have hv : (item.type == "video") = false := by simp [himg]
    simp [acquire, hv, getLocalFile, hf, hex]
  have hp : (env.filesStore ++ "/" ++ f) ≠ "" := by
    intro hc
    have hlen := congrArg String.length hc
    rw [String.length_append, String.length_append] at hlen
    have h1 : ("/" : String).length = 1 := rfl
    have h0 : ("" : String).length = 0 := rfl
    rw [h1, h0] at hlen
    omega
  rcases hur : uploadToFacebook env (env.filesStore ++ "/" ++ f) item with ⟨ur, uev⟩
  have huev : uev = (uploadToFacebook env (env.filesStore ++ "/" ++ f) item).2 := by
    rw [hur]
  subst huev
  cases ur with
  | ok fbid =>
      have h := processItem_upload_ok env item st _ fbid _ _ (Or.inl himg) hdup hacq hp hex hur
      constructor
      · rw [h]
        simp only [getCount_append, getCount_upload]
        rfl
      · intro r hm
        rw [h] at hm
        rcases List.mem_append.mp hm with hm | hm
        · rcases List.mem_append.mp hm with hm | hm
          · simp at hm
          · rcases mem_upload env _ item _ hm with h' | h' <;> simp at h'
        · simp at hm
          rcases hm with h' | h' <;> (subst h'; rfl)
  | fail e =>
      have h := processItem_upload_fail env item st _ e _ _ (Or.inl himg) hdup hacq hp hex hur
      constructor
      · rw [h]
        simp only [getCount_append, getCount_upload]
        rfl
      · intro r hm
        rw [h] at hm
        rcases List.mem_append.mp hm with hm | hm
        · rcases List.mem_append.mp hm with hm | hm
          · simp at hm
          · rcases mem_upload env _ item _ hm with h' | h' <;> simp at h'
        · simp at hm
          subst hm
          rfl

/-- Witness for `prefetch_used_for_image`: the image item `itemP` whose
FilesPipeline file exists is processed with zero network GETs even though
the network is down in `envP`. -/
theorem prefetch_used_for_image_witness :
    getCount (processItem envP itemP []).trace = 0 :=
  (prefetch_used_for_image envP itemP [] "full/img7.png" [] rfl rfl rfl rfl).1

/-- C6: `_download_direct` resolves the extension in strict order: (a) a
`mimetypes.guess_extension` hit on the Content-Type media type, with the
`.jpe` jpeg variant normalized to `.jpg`; else (b) the extension parsed from
the URL path; else (c) `.mp4` when the item is declared video; else (d)
`.bin`.  In particular Content-Type `image/jpeg` yields `.jpg` (whether the
guess table answers `.jpe` or `.jpg`), and a video-typed post with an
unrecognized Content-Type and no URL extension yields `.mp4`. -/
theorem extension_resolution_order :
    (∀ (g : String → Option String) (hdr url ty e : String),
      g (contentTypeOf hdr) = some e → contentTypeOf hdr ≠ "" → e ≠ "" →
        resolveExt g hdr url ty = (if e = ".jpe" then ".jpg" else e)) ∧
    (∀ (g : String → Option String) (hdr url ty : String),
      (contentTypeOf hdr = "" ∨ g (contentTypeOf hdr) = none) → urlExtOf url ≠ "" →
        resolveExt g hdr url ty = urlExtOf url) ∧
    (∀ (g : String → Option String) (hdr url : String),
      (contentTypeOf hdr = "" ∨ g (contentTypeOf hdr) = none) → urlExtOf url = "" →
        resolveExt g hdr url "video" = ".mp4") ∧
    (∀ (g : String → Option String) (hdr url ty : String),
      (contentTypeOf hdr = "" ∨ g (contentTypeOf hdr) = none) → urlExtOf url = "" →
      ty ≠ "video" →
        resolveExt g hdr url ty = ".bin") ∧
    (∀ (g : String → Option String) (url ty e : String),
      g "image/jpeg" = some e → (e = ".jpe" ∨ e = ".jpg") →
        resolveExt g "image/jpeg" url ty = ".jpg") := by
  refine ⟨?_, ?_, ?_, ?_, ?_⟩
  · intro g hdr url ty e hg hct he
    have hct' : (contentTypeOf hdr != "") = true := by simpa using hct
    by_cases hje : e = ".jpe"
    · subst hje
      simp [resolveExt, hct', hg, pyTruthy]
    · simp [resolveExt, hct', hg, pyTruthy, hje, he]
  · intro g hdr url ty hor hurl
    have hurl' : (urlExtOf url != "") = true := by simpa using hurl
    rcases hor with hct | hg
    · have hct' : (contentTypeOf hdr != "") = false := by simp [hct]
      simp [resolveExt, hct', hurl', pyTruthy, hurl]
    · by_cases hct : (contentTypeOf hdr != "") = true
      · simp [resolveExt, hct, hg, hurl', pyTruthy, hurl]
      · have hct' : (contentTypeOf hdr != "") = false := by
          simpa using hct
        simp [resolveExt, hct', hurl', pyTruthy, hurl]
  · intro g hdr url hor hurl
    have hurl' : (urlExtOf url != "") = false := by simp [hurl]
    rcases hor with hct | hg
    · have hct' : (contentTypeOf hdr != "") = false := by simp [hct]
      simp [resolveExt, hct', hurl', pyTruthy]
    · by_cases hct : (contentTypeOf hdr != "") = true
      · simp [resolveExt, hct, hg, hurl', pyTruthy]
      · have hct' : (contentTypeOf hdr != "") = false := by
          simpa using hct
        simp [resolveExt, hct', hurl', pyTruthy]
  · intro g hdr url ty hor hurl hty
    have hurl' : (urlExtOf url != "") = false := by simp [hurl]
    have hty' : (ty == "video") = false := by simp [hty]
    rcases hor with hct | hg
    · have hct' : (contentTypeOf hdr != "") = false := by simp [hct]
      simp [resolveExt, hct', hurl', pyTruthy, hty']
    · by_cases hct : (contentTypeOf hdr != "") = true
      · simp [resolveExt, hct, hg, hurl', pyTruthy, hty']
      · have hct' : (contentTypeOf hdr != "") = false := by
          simpa using hct
        simp [resolveExt, hct', hurl', pyTruthy, hty']
  · intro g url ty e hg hor
    have hct : contentTypeOf "image/jpeg" = "image/jpeg" := rfl
    rcases hor with rfl | rfl
    · simp [resolveExt, hct, hg, pyTruthy]
    · simp [resolveExt, hct, hg, pyTruthy]

/-- Witness for `extension_resolution_order`: the table `stdGuess` on
`image/jpeg` yields a `.jpg` file even with no URL extension, and a
video-typed fetch with an unrecognized Content-Type and no URL extension
yields `.mp4`. -/
theorem extension_resolution_order_witness :
    resolveExt stdGuess "image/jpeg" "https://example/noext" "image" = ".jpg" ∧
    resolveExt (fun _ => none) "application/wat" "https://example/noext" "video"
      = ".mp4" := by
  constructor
  · exact extension_resolution_order.2.2.2.2 stdGuess "https://example/noext"
      "image" ".jpg" rfl (Or.inr rfl)
  · exact extension_resolution_order.2.2.1 (fun _ => none) "application/wat"
      "https://example/noext" (Or.inr rfl) rfl

/-- C8 is refuted as stated: by the claim, an image-typed post with a `.mov`
file classifies as video (from the extension list) or photo (from the
declared type); the code instead rejects it — `ext in (".mp4")` is a
substring test that `.mov` fails, and the photo branch compares the declared
type against "preview", not "image". -/
theorem classification_counterexample :
    uploadToFacebook envA "media/clip.mov" itemA =
      (.fail "Only video and image uploads are supported", []) ∧
    itemA.type = "image" :=
  ⟨rfl, rfl⟩

/-- C8 (amended): the publisher rejects a file if and only if none of the
following hold: the declared type is "video"; the lower-cased extension is a
contiguous substring of ".mp4" (which admits `.mp4`, `.m`, and even the
empty extension, but not `.mov`, `.webm` or `.mkv`); the declared type is
"preview"; or the lower-cased extension is one of `.jpeg`/`.jpg`/`.png`. -/
theorem classification_characterization (env : Env) (path : String) (item : Item) :
    uploadToFacebook env path item =
      (.fail "Only video and image uploads are supported", []) ↔
    ¬ (item.type = "video" ∨ pyInStr (pyLower (pySplitextExt path)) ".mp4" = true ∨
       item.type = "preview" ∨
       pyLower (pySplitextExt path) ∈ ([".jpeg", ".jpg", ".png"] : List String)) := by
  have hbool : (isVideoFile item (pyLower (pySplitextExt path)) ||
      isPhotoFile item (pyLower (pySplitextExt path))) = true ↔
      (item.type = "video" ∨ pyInStr (pyLower (pySplitextExt path)) ".mp4" = true ∨
       item.type = "preview" ∨
       pyLower (pySplitextExt path) ∈ ([".jpeg", ".jpg", ".png"] : List String)) := by
    simp [isVideoFile, isPhotoFile, or_assoc]
  constructor
  · intro h hcls
    rw [← hbool] at hcls
    have hne : uploadToFacebook env path item ≠
        (.fail "Only video and image uploads are supported", []) := by
      unfold uploadToFacebook
      rw [hcls]
      simp only [Bool.not_true, Bool.false_eq_true, if_false]
      by_cases hs : 400 ≤ env.uploadStatus
      · rw [if_pos hs]
        intro hc
        have h2 := congrArg Prod.snd hc
        simp at h2
      · rw [if_neg hs]
        intro hc
        have h2 := congrArg Prod.snd hc
        simp at h2
    exact hne h
  · intro hcls
    have hb : (isVideoFile item (pyLower (pySplitextExt path)) ||
        isPhotoFile item (pyLower (pySplitextExt path))) = false := by
      rcases Bool.eq_false_or_eq_true (isVideoFile item (pyLower (pySplitextExt path)) ||
        isPhotoFile item (pyLower (pySplitextExt path))) with h | h
      · exact absurd (hbool.mp h) hcls
      · exact h
    unfold uploadToFacebook
    rw [hb]
    simp

/-- Witness for `classification_characterization`: an image-typed post with a
`.bin` file is unclassifiable and rejected. -/
theorem classification_characterization_witness :
    uploadToFacebook envA "media/file.bin" itemA =
      (.fail "Only video and image uploads are supported", []) :=
  (classification_characterization envA "media/file.bin" itemA).mpr (by decide)

end RedditFbScraper
